import Mathlib

/-!
Verification development for the kool-skool multi-tenant school management
repository. The two core components are embedded shallowly:

1. the Tenant Provisioner, the create-tenant edge function
   (src/supabase/functions/create-tenant/index.ts), modelled as a pure
   handler over list-based stores with explicit failure-injection flags
   for each fallible backend call and a trace of the store actions it
   performs; and

2. the Session/Tenant Binder, the AuthProvider
   (src/scripts/setup-database.ts), modelled as explicit state passing
   over an AuthState record mirroring the React state fields.

Machine strings are Lean String; the backend stores are lists of rows.
-/

namespace KoolSkool

/-- Whitespace class of the JS regex metacharacter backslash-s as used by
the email pattern in the handler. -/
def isJsSpace (c : Char) : Bool :=
  c == ' ' || c == '\t' || c == '\n' || c == '\r' || c == '\x0b' || c == '\x0c'

/-- Membership in the character class of the email regex: any character
that is neither whitespace nor the at sign. -/
def emailClassChar (c : Char) : Bool :=
  !(isJsSpace c) && c != '@'

/-- The JS toLowerCase call, modelled characterwise. -/
def jsToLower (s : String) : String := ⟨s.data.map Char.toLower⟩

/-- Full-match test of the email pattern used at index.ts line 74:
one nonempty run of class characters, a literal at sign, then a domain
that is all class characters and contains a dot with at least one
character on each side. Since the class excludes the at sign, a matching
string has exactly one at sign. -/
def emailRegexTest (s : String) : Bool :=
  match s.toList.splitOn '@' with
  | [lpart, dpart] =>
      lpart ≠ [] && lpart.all emailClassChar &&
      dpart ≠ [] && dpart.all emailClassChar &&
      ((dpart.drop 1).dropLast.contains '.')
  | _ => false

namespace Provisioner

/-- A row of the schools table as inserted by the edge function. -/
structure SchoolRow where
  id : String
  name : String
  address : Option String
  phone : Option String
  email : Option String
  subscription_tier : String
  subscription_status : String
  max_students : Nat
  max_teachers : Nat
deriving DecidableEq, Repr

/-- The custom claims embedded in the auth user at creation. -/
structure UserMetadata where
  tenant_id : String
  role : String
  first_name : Option String
  last_name : Option String
deriving DecidableEq, Repr

/-- An identity-provider user as created by auth.admin.createUser. -/
structure AuthUser where
  id : String
  email : String
  password : String
  user_metadata : UserMetadata
  email_confirm : Bool
deriving DecidableEq, Repr

/-- A row of the profiles table as inserted by the edge function. -/
structure ProfileRow where
  id : String
  tenant_id : String
  email : String
  role : String
  first_name : Option String
  last_name : Option String
  is_active : Bool
deriving DecidableEq, Repr

/-- A row of the academic_terms table as inserted by step 4. -/
structure TermRow where
  tenant_id : String
  name : String
  start_date : String
  end_date : String
  is_current : Bool
  academic_year : String
deriving DecidableEq, Repr

/-- The backend stores touched by the edge function. -/
structure Store where
  schools : List SchoolRow
  users : List AuthUser
  profiles : List ProfileRow
  terms : List TermRow
deriving DecidableEq, Repr

/-- The request body CreateTenantRequest. The three required fields are
plain strings, with the empty string standing for the JS falsy values
caught by the presence check; optional fields are options. -/
structure CreateTenantRequest where
  email : String
  password : String
  schoolName : String
  schoolAddress : Option String := none
  schoolPhone : Option String := none
  schoolEmail : Option String := none
  adminFirstName : Option String := none
  adminLastName : Option String := none
  subscriptionTier : Option String := none
deriving Repr

/-- The HTTP response produced by the handler: status code plus the JSON
body fields of CreateTenantResponse. -/
structure HttpResponse where
  status : Nat
  success : Bool
  error : Option String
  tenantId : Option String
  userId : Option String
deriving DecidableEq, Repr

/-- One store action performed by the handler, recorded in order. -/
inductive DbAction where
  | insertSchool (id : String)
  | createUser (id : String)
  | insertProfile (id : String)
  | insertTerm (tenantId : String)
  | deleteUser (id : String)
  | deleteSchool (id : String)
deriving DecidableEq, Repr

/-- Failure injection for the four fallible mutation steps. -/
structure Injection where
  schoolInsertFails : Bool := false
  userCreateFails : Bool := false
  profileInsertFails : Bool := false
  termInsertFails : Bool := false
deriving Repr

/-- Case-insensitive store pattern matching for ilike: percent matches
any run of characters and underscore matches one character; every other
pattern character matches case-insensitively. -/
def ilikeMatch : List Char → List Char → Bool
  | [], [] => true
  | [], _ :: _ => false
  | '%' :: ps, [] => ilikeMatch ps []
  | '%' :: ps, c :: s => ilikeMatch ps (c :: s) || ilikeMatch ('%' :: ps) s
  | '_' :: _, [] => false
  | '_' :: ps, _ :: s => ilikeMatch ps s
  | _ :: _, [] => false
  | p :: ps, c :: s => p.toLower == c.toLower && ilikeMatch ps s
termination_by p s => (s.length, p.length)

/-- The ilike filter applied to a column value and a pattern. -/
def ilike (value pattern : String) : Bool :=
  ilikeMatch pattern.toList value.toList

/-- The presence check at index.ts line 60: any of the three required
fields falsy. -/
def requiredMissing (req : CreateTenantRequest) : Bool :=
  req.email == "" || req.password == "" || req.schoolName == ""

/-- The duplicate email check at index.ts line 104: some listed auth user
whose stored email equals the lowercased request email. -/
def emailExistsCheck (req : CreateTenantRequest) (st : Store) : Bool :=
  st.users.any (fun u => u.email == jsToLower req.email)

/-- The duplicate school-name check at index.ts lines 120 to 126: the
single() call yields a row exactly when exactly one school matches the
trimmed name under ilike. -/
def schoolConflictCheck (req : CreateTenantRequest) (st : Store) : Bool :=
  (st.schools.filter (fun s => ilike s.name req.schoolName.trim)).length == 1

/-- Delete from the schools table by id, the compensation call at
index.ts lines 183 and 259. -/
def deleteSchoolById (st : Store) (tid : String) : Store :=
  { st with schools := st.schools.filter (fun s => s.id != tid) }

/-- Delete the auth user by id, the compensation call at index.ts
lines 205 and 251. -/
def deleteUserById (st : Store) (uid : String) : Store :=
  { st with users := st.users.filter (fun u => u.id != uid) }

/-- Result of one invocation of the handler. -/
structure HandlerResult where
  resp : HttpResponse
  store : Store
  trace : List DbAction
deriving Repr

/-- The school row inserted by step 1. -/
def insertedSchool (req : CreateTenantRequest) (freshTenantId : String) : SchoolRow :=
  { id := freshTenantId
    name := req.schoolName.trim
    address := req.schoolAddress.map String.trim
    phone := req.schoolPhone.map String.trim
    email := req.schoolEmail.map (fun e => (jsToLower e).trim)
    subscription_tier := req.subscriptionTier.getD "free"
    subscription_status := "active"
    max_students := 500
    max_teachers := 50 }

/-- The auth user created by step 2. -/
def insertedAuthUser (req : CreateTenantRequest) (freshTenantId freshUserId : String) : AuthUser :=
  { id := freshUserId
    email := jsToLower req.email
    password := req.password
    user_metadata :=
      { tenant_id := freshTenantId
        role := "admin"
        first_name := req.adminFirstName.map String.trim
        last_name := req.adminLastName.map String.trim }
    email_confirm := true }

/-- The profile row inserted by step 3. -/
def insertedProfile (req : CreateTenantRequest) (freshTenantId freshUserId : String) : ProfileRow :=
  { id := freshUserId
    tenant_id := freshTenantId
    email := jsToLower req.email
    role := "admin"
    first_name := req.adminFirstName.map String.trim
    last_name := req.adminLastName.map String.trim
    is_active := true }

/-- The academic term inserted by step 4 for the current wall-clock year. -/
def insertedTerm (freshTenantId : String) (currentYear : Nat) : TermRow :=
  { tenant_id := freshTenantId
    name := "Fall " ++ toString currentYear
    start_date := toString currentYear ++ "-09-01"
    end_date := toString (currentYear + 1) ++ "-06-30"
    is_current := true
    academic_year := toString currentYear ++ "-" ++ toString (currentYear + 1) }

/-- The create-tenant edge function handler, index.ts lines 37 to 282.
Fresh row ids and the wall-clock year are inputs; each fallible backend
mutation is resolved by the injection flags. On a step 2 failure the
inline cleanup deletes the school and the catch block deletes it again;
on a step 3 failure the inline cleanup deletes the user then the school
and the catch block repeats both deletions, each wrapped so that the
repeat cannot fail the response. -/
def createTenant (freshTenantId freshUserId : String) (currentYear : Nat)
    (inj : Injection) (req : CreateTenantRequest) (st : Store) : HandlerResult :=
  if requiredMissing req then
    ⟨⟨400, false, some "Email, password, and school name are required", none, none⟩, st, []⟩
  else if !emailRegexTest req.email then
    ⟨⟨400, false, some "Invalid email format", none, none⟩, st, []⟩
  else if req.password.length < 8 then
    ⟨⟨400, false, some "Password must be at least 8 characters long", none, none⟩, st, []⟩
  else if emailExistsCheck req st then
    ⟨⟨409, false, some "Email address is already registered", none, none⟩, st, []⟩
  else if schoolConflictCheck req st then
    ⟨⟨409, false, some "A school with this name already exists", none, none⟩, st, []⟩
  else if inj.schoolInsertFails then
    ⟨⟨500, false, some "Failed to create school", none, none⟩, st, []⟩
  else
    let st1 : Store := { st with schools := st.schools ++ [insertedSchool req freshTenantId] }
    if inj.userCreateFails then
      let st2 := deleteSchoolById st1 freshTenantId
      let st3 := deleteSchoolById st2 freshTenantId
      ⟨⟨500, false, some "Failed to create admin user", none, none⟩, st3,
        [.insertSchool freshTenantId, .deleteSchool freshTenantId, .deleteSchool freshTenantId]⟩
    else
      let st2 : Store := { st1 with users := st1.users ++ [insertedAuthUser req freshTenantId freshUserId] }
      if inj.profileInsertFails then
        let st3 := deleteSchoolById (deleteUserById st2 freshUserId) freshTenantId
        let st4 := deleteSchoolById (deleteUserById st3 freshUserId) freshTenantId
        ⟨⟨500, false, some "Failed to create admin profile", none, none⟩, st4,
          [.insertSchool freshTenantId, .createUser freshUserId,
           .deleteUser freshUserId, .deleteSchool freshTenantId,
           .deleteUser freshUserId, .deleteSchool freshTenantId]⟩
      else
        let st3 : Store := { st2 with profiles := st2.profiles ++ [insertedProfile req freshTenantId freshUserId] }
        let st4 : Store :=
          if inj.termInsertFails then st3
          else { st3 with terms := st3.terms ++ [insertedTerm freshTenantId currentYear] }
        ⟨⟨201, true, none, some freshTenantId, some freshUserId⟩, st4,
          [DbAction.insertSchool freshTenantId, .createUser freshUserId, .insertProfile freshUserId] ++
            (if inj.termInsertFails then [] else [DbAction.insertTerm freshTenantId])⟩

end Provisioner

namespace Binder

/-- The slice of a Supabase session the Binder reads: the user id and the
user_metadata claims carried by the token. -/
structure Session where
  userId : String
  metaTenantId : Option String
  metaRole : Option String
deriving DecidableEq, Repr

/-- A row of the profiles table as read by the Binder. -/
structure Profile where
  id : String
  tenant_id : String
  email : String
  role : String
  first_name : Option String
  last_name : Option String
  is_active : Bool
  last_login : Option String
  created_at : String
deriving DecidableEq, Repr

/-- A row of the schools table as read by the Binder. -/
structure School where
  id : String
  name : String
  address : Option String
  phone : Option String
  email : Option String
  subscription_tier : String
  subscription_status : String
  max_students : Nat
  max_teachers : Nat
deriving DecidableEq, Repr

/-- An extension row of the teachers table inserted on teacher signup. -/
structure TeacherRow where
  tenant_id : String
  profile_id : String
deriving DecidableEq, Repr

/-- An extension row of the parents table inserted on parent signup. -/
structure ParentRow where
  tenant_id : String
  profile_id : String
  relationship_type : String
  emergency_contact : Bool
  can_pickup : Bool
deriving DecidableEq, Repr

/-- The backend tables the Binder touches. -/
structure Db where
  profiles : List Profile
  schools : List School
  teachers : List TeacherRow := []
  parents : List ParentRow := []
deriving DecidableEq, Repr

/-- The React state fields of AuthProvider, setup-database.ts
lines 184 to 190. -/
structure AuthState where
  session : Option Session
  user : Option Profile
  school : Option School
  role : Option String
  tenantId : Option String
  isLoading : Bool
deriving DecidableEq, Repr

/-- The state at provider construction. -/
def initialState : AuthState :=
  { session := none, user := none, school := none, role := none,
    tenantId := none, isLoading := true }

/-- The user_metadata claims stored at the identity provider, updated by
switchTenant through auth.updateUser. -/
structure UserClaims where
  tenant_id : Option String
  role : Option String
deriving DecidableEq, Repr

/-- The profile query of fetchUserData, lines 198 to 203: select by id
with the is_active filter. -/
def profileQuery (db : Db) (userId : String) : List Profile :=
  db.profiles.filter (fun p => p.id == userId && p.is_active)

/-- The school query of fetchUserData, lines 216 to 221: select by the
profile tenant id with the subscription_status filter. -/
def schoolQuery (db : Db) (tenantId : String) : List School :=
  db.schools.filter (fun s => s.id == tenantId && s.subscription_status == "active")

/-- The access-check query of switchTenant, lines 483 to 488. -/
def tenantProfileQuery (db : Db) (userId newTenantId : String) : List Profile :=
  db.profiles.filter (fun p => p.id == userId && p.tenant_id == newTenantId)

/-- Result of one fetchUserData call: the updated client state, the
updated store, and the returned boolean. -/
structure FetchResult where
  state : AuthState
  db : Db
  ok : Bool
deriving Repr

/-- fetchUserData, lines 193 to 253. The single() calls demand exactly
one matching row; either failing read returns false leaving the bound
fields untouched. On success the four bound fields are set together and
the last_login write is issued with its error ignored; the flag resolves
whether that write takes effect. -/
def fetchUserData (db : Db) (st : AuthState) (userId : String) (now : String)
    (lastLoginWriteFails : Bool) : FetchResult :=
  match profileQuery db userId with
  | [p] =>
    match schoolQuery db p.tenant_id with
    | [s] =>
      let st1 := { st with user := some p, school := some s,
                           role := some p.role, tenantId := some p.tenant_id,
                           isLoading := false }
      let db1 :=
        if lastLoginWriteFails then db
        else { db with profiles := db.profiles.map (fun q =>
                 if q.id == userId && q.tenant_id == p.tenant_id
                 then { q with last_login := some now } else q) }
      ⟨st1, db1, true⟩
    | _ => ⟨{ st with isLoading := false }, db, false⟩
  | _ => ⟨{ st with isLoading := false }, db, false⟩

/-- refreshUserData, lines 255 to 259. -/
def refreshUserData (db : Db) (st : AuthState) (now : String)
    (lastLoginWriteFails : Bool) : FetchResult :=
  match st.session with
  | some s => fetchUserData db st s.userId now lastLoginWriteFails
  | none => ⟨st, db, true⟩

/-- Outcome of the password grant at the identity provider. -/
inductive SignInAuth where
  | fail (msg : String)
  | noSession
  | ok (s : Session)
deriving Repr

/-- Result of a Binder operation returning success and error fields. -/
structure OpOutcome where
  state : AuthState
  db : Db
  success : Bool
  error : Option String
deriving Repr

/-- signIn, lines 388 to 422: authenticate, store the session, then run
fetchUserData; a failed fetch surfaces the fixed message while the
session just set remains stored. -/
def signIn (db : Db) (st : AuthState) (_email _password : String)
    (auth : SignInAuth) (now : String) (lastLoginWriteFails : Bool) : OpOutcome :=
  match auth with
  | .fail msg => ⟨{ st with isLoading := false }, db, false, some msg⟩
  | .noSession => ⟨{ st with isLoading := false }, db, false, some "No session returned from signin"⟩
  | .ok s =>
    let st1 := { st with session := some s }
    let r := fetchUserData db st1 s.userId now lastLoginWriteFails
    if r.ok then ⟨r.state, r.db, true, none⟩
    else ⟨r.state, r.db, false, some "Failed to load user data"⟩

/-- signOut, lines 424 to 444: when revocation errors the function logs
and returns early, leaving every field as it was; otherwise all five
fields are cleared. It never throws to the caller. -/
def signOut (st : AuthState) (revokeFails : Bool) : AuthState :=
  if revokeFails then st
  else { st with session := none, user := none, school := none,
                 role := none, tenantId := none }

/-- A Partial of Profile passed to updateProfile: each present field is
an update to apply. -/
structure ProfileUpdates where
  id : Option String := none
  tenant_id : Option String := none
  created_at : Option String := none
  email : Option String := none
  role : Option String := none
  first_name : Option (Option String) := none
  last_name : Option (Option String) := none
  is_active : Option Bool := none
  last_login : Option (Option String) := none
deriving Repr

/-- The rest spread at line 453: id, tenant_id and created_at are
stripped and every remaining present field is applied. -/
def applyAllowedUpdates (u : ProfileUpdates) (p : Profile) : Profile :=
  { p with
    email := u.email.getD p.email
    role := u.role.getD p.role
    first_name := u.first_name.getD p.first_name
    last_name := u.last_name.getD p.last_name
    is_active := u.is_active.getD p.is_active
    last_login := u.last_login.getD p.last_login }

/-- updateProfile, lines 446 to 474: requires a bound user and tenant,
strips the protected fields, updates the rows matching both equality
filters, then refreshes the bound state; the refresh result is not
consulted for the returned success. updateWriteError resolves the store
update call. -/
def updateProfile (db : Db) (st : AuthState) (u : ProfileUpdates)
    (updateWriteError : Option String) (now : String)
    (lastLoginWriteFails : Bool) : OpOutcome :=
  match st.user, st.tenantId with
  | some user, some tid =>
    match updateWriteError with
    | some msg => ⟨st, db, false, some msg⟩
    | none =>
      let db1 := { db with profiles := db.profiles.map (fun q =>
                     if q.id == user.id && q.tenant_id == tid
                     then applyAllowedUpdates u q else q) }
      match st.session with
      | some s =>
        let r := fetchUserData db1 st s.userId now lastLoginWriteFails
        ⟨r.state, r.db, true, none⟩
      | none => ⟨st, db1, true, none⟩
  | _, _ => ⟨st, db, false, some "No authenticated user"⟩

/-- Result of one switchTenant call. -/
structure SwitchResult where
  state : AuthState
  db : Db
  claims : UserClaims
  success : Bool
  error : Option String
deriving Repr

/-- switchTenant, lines 476 to 518: requires a session, verifies a
profile row for the target tenant, pushes the new claims through
auth.updateUser, then rebinds; a missing row is an access-denied return
that changes nothing. updateUserError resolves the claims push. -/
def switchTenant (db : Db) (claims : UserClaims) (st : AuthState)
    (newTenantId : String) (updateUserError : Option String) (now : String)
    (lastLoginWriteFails : Bool) : SwitchResult :=
  match st.session with
  | none => ⟨st, db, claims, false, some "No authenticated user"⟩
  | some s =>
    match tenantProfileQuery db s.userId newTenantId with
    | [p] =>
      match updateUserError with
      | some msg => ⟨st, db, claims, false, some msg⟩
      | none =>
        let claims1 : UserClaims := ⟨some newTenantId, some p.role⟩
        let r := fetchUserData db st s.userId now lastLoginWriteFails
        if r.ok then ⟨r.state, r.db, claims1, true, none⟩
        else ⟨r.state, r.db, claims1, false, some "Failed to load tenant data"⟩
    | _ => ⟨st, db, claims, false, some "Access denied to this tenant"⟩

/-- The onAuthStateChange handler, lines 534 to 563. A pushed null
session clears every field at once; a pushed live session is stored and
then validated through fetchUserData. When the token carries a tenant
claim and the fetch fails, the handler additionally revokes the remote
session, which changes no local field by itself. -/
def authStateChange (db : Db) (st : AuthState) (push : Option Session)
    (now : String) (lastLoginWriteFails : Bool) : AuthState × Db :=
  match push with
  | none =>
    ({ st with session := none, user := none, school := none,
               role := none, tenantId := none, isLoading := false }, db)
  | some s =>
    let st1 := { st with session := some s }
    let r := fetchUserData db st1 s.userId now lastLoginWriteFails
    match s.metaTenantId with
    | some _ => (r.state, r.db)
    | none => (r.state, r.db)

/-- The initial getSession effect, lines 522 to 529: store the restored
session and bind when a user is present, else stop loading. -/
def startSession (db : Db) (st : AuthState) (restored : Option Session)
    (now : String) (lastLoginWriteFails : Bool) : FetchResult :=
  match restored with
  | some s => fetchUserData db { st with session := some s } s.userId now lastLoginWriteFails
  | none => ⟨{ st with session := none, isLoading := false }, db, true⟩

/-- The hardcoded default tenant for non-admin signup, line 298. -/
def defaultTestSchoolId : String := "a0eebc99-9c0b-4ef8-bb6d-6bb9bd380a11"

/-- The Partial of School accepted by signUp for admin school creation. -/
structure SchoolInsertData where
  name : String
  address : Option String := none
  phone : Option String := none
  email : Option String := none
  subscription_tier : Option String := none
  subscription_status : Option String := none
  max_students : Option Nat := none
  max_teachers : Option Nat := none
deriving Repr

/-- Outcome of auth.signUp at the identity provider. -/
inductive SignUpAuthResult where
  | fail (msg : String)
  | noUser
  | ok (userId : String) (session : Option Session)
deriving Repr

/-- Result of one signUp call. -/
structure SignUpOutcome where
  state : AuthState
  db : Db
  success : Bool
  error : Option String
  userId : Option String
deriving Repr

/-- signUp, lines 261 to 386: an admin with school data first inserts a
school, others use the hardcoded default tenant; then the identity is
created, the profile inserted, a role extension row attempted with its
failure only logged, and when a session was returned it is stored and
fetchUserData runs. -/
def signUp (db : Db) (st : AuthState) (email _password : String) (role : String)
    (schoolData : Option SchoolInsertData) (freshSchoolId : String)
    (schoolInsertFails : Bool) (authRes : SignUpAuthResult)
    (profileInsertFails roleRowFails : Bool) (now : String)
    (lastLoginWriteFails : Bool) : SignUpOutcome :=
  let adminWithSchool := schoolData.isSome && role == "admin"
  if adminWithSchool && schoolInsertFails then
    ⟨{ st with isLoading := false }, db, false, some "Failed to create school", none⟩
  else
    let schoolId := if adminWithSchool then freshSchoolId else defaultTestSchoolId
    let db0 :=
      match schoolData, adminWithSchool with
      | some sd, true =>
        { db with schools := db.schools ++
            [{ id := freshSchoolId, name := sd.name, address := sd.address,
               phone := sd.phone, email := sd.email,
               subscription_tier := sd.subscription_tier.getD "free",
               subscription_status := sd.subscription_status.getD "active",
               max_students := sd.max_students.getD 500,
               max_teachers := sd.max_teachers.getD 50 }] }
      | _, _ => db
    match authRes with
    | .fail msg => ⟨{ st with isLoading := false }, db0, false, some msg, none⟩
    | .noUser => ⟨{ st with isLoading := false }, db0, false, some "No user returned from signup", none⟩
    | .ok uid sessionOpt =>
      if profileInsertFails then
        ⟨{ st with isLoading := false }, db0, false, some "Failed to create user profile", none⟩
      else
        let db1 := { db0 with profiles := db0.profiles ++
          [{ id := uid, tenant_id := schoolId, email := jsToLower email, role := role,
             first_name := none, last_name := none, is_active := true,
             last_login := none, created_at := now }] }
        let db2 :=
          if role == "teacher" then
            if roleRowFails then db1
            else { db1 with teachers := db1.teachers ++ [{ tenant_id := schoolId, profile_id := uid }] }
          else if role == "parent" then
            if roleRowFails then db1
            else { db1 with parents := db1.parents ++
              [{ tenant_id := schoolId, profile_id := uid, relationship_type := "other",
                 emergency_contact := false, can_pickup := false }] }
          else db1
        match sessionOpt with
        | some sess =>
          let st1 := { st with session := some sess }
          let r := fetchUserData db2 st1 uid now lastLoginWriteFails
          ⟨r.state, r.db, true, none, some uid⟩
        | none => ⟨{ st with isLoading := false }, db2, true, none, some uid⟩

/-- Internal consistency of the bound view: all four bound fields are
cleared together, and a bound profile always comes with its own role and
tenant id, an active flag, and the matching active school snapshot. -/
def Consistent (st : AuthState) : Prop :=
  (st.user = none → st.school = none ∧ st.role = none ∧ st.tenantId = none) ∧
  ∀ p, st.user = some p →
    st.role = some p.role ∧ st.tenantId = some p.tenant_id ∧ p.is_active = true ∧
    ∃ s, st.school = some s ∧ s.id = p.tenant_id ∧ s.subscription_status = "active"

/-- The client states reachable from provider construction through the
transitions of the AuthProvider, against arbitrary stores, claims and
call outcomes. -/
inductive Reachable : AuthState → Prop where
  | init : Reachable initialState
  | start (db : Db) (st : AuthState) (restored : Option Session) (now : String) (ll : Bool) :
      Reachable st → Reachable (startSession db st restored now ll).state
  | stepSignIn (db : Db) (st : AuthState) (e pw : String) (auth : SignInAuth)
      (now : String) (ll : Bool) :
      Reachable st → Reachable (signIn db st e pw auth now ll).state
  | stepSignUp (db : Db) (st : AuthState) (e pw role : String)
      (sd : Option SchoolInsertData) (fid : String) (sif : Bool)
      (ar : SignUpAuthResult) (pif rrf : Bool) (now : String) (ll : Bool) :
      Reachable st → Reachable (signUp db st e pw role sd fid sif ar pif rrf now ll).state
  | stepSignOut (st : AuthState) (rf : Bool) :
      Reachable st → Reachable (signOut st rf)
  | stepRefresh (db : Db) (st : AuthState) (now : String) (ll : Bool) :
      Reachable st → Reachable (refreshUserData db st now ll).state
  | stepUpdateProfile (db : Db) (st : AuthState) (u : ProfileUpdates)
      (we : Option String) (now : String) (ll : Bool) :
      Reachable st → Reachable (updateProfile db st u we now ll).state
  | stepSwitchTenant (db : Db) (claims : UserClaims) (st : AuthState)
      (ntid : String) (ue : Option String) (now : String) (ll : Bool) :
      Reachable st → Reachable (switchTenant db claims st ntid ue now ll).state
  | stepAuthChange (db : Db) (st : AuthState) (push : Option Session)
      (now : String) (ll : Bool) :
      Reachable st → Reachable (authStateChange db st push now ll).1

/-- A concrete active profile used by witnesses. -/
def exProfile : Profile :=
  { id := "u1", tenant_id := "t1", email := "a@x.io", role := "admin",
    first_name := none, last_name := none, is_active := true,
    last_login := none, created_at := "2024-01-01" }

/-- A concrete active school used by witnesses. -/
def exSchool : School :=
  { id := "t1", name := "Demo", address := none, phone := none, email := none,
    subscription_tier := "free", subscription_status := "active",
    max_students := 500, max_teachers := 50 }

/-- A concrete session for the same identity. -/
def exSession : Session :=
  { userId := "u1", metaTenantId := some "t1", metaRole := some "admin" }

/-- A concrete fully bound state for that identity and tenant. -/
def boundExampleState : AuthState :=
  { session := some exSession, user := some exProfile, school := some exSchool,
    role := some "admin", tenantId := some "t1", isLoading := false }

/-- A store with no rows at all. -/
def emptyDb : Db := { profiles := [], schools := [] }

/-- A store holding exactly the example profile and school. -/
def exDb : Db := { profiles := [exProfile], schools := [exSchool] }

/-- An update input that sets firstName and also tries to overwrite the
three protected fields. -/
def exUpdates : ProfileUpdates :=
  { first_name := some (some "X"), id := some "EVIL",
    tenant_id := some "EVIL", created_at := some "EVIL" }

end Binder

namespace Provisioner

/-- An empty backend store. -/
def emptyStore : Store := { schools := [], users := [], profiles := [], terms := [] }

/-- No injected failures. -/
def noInj : Injection := {}

/-- A request with a five-character password, otherwise valid. -/
def shortPwReq : CreateTenantRequest :=
  { email := "a@school.edu", password := "short", schoolName := "X" }

/-- A fully valid request. -/
def okReq : CreateTenantRequest :=
  { email := "admin@x.edu", password := "Passw0rd!", schoolName := "Lincoln" }

/-- A request whose email differs only in letter case from a stored one. -/
def dupEmailReq : CreateTenantRequest :=
  { email := "A@School.edu", password := "longpassword", schoolName := "X" }

/-- An existing identity whose stored email is lowercase. -/
def existingUser : AuthUser :=
  { id := "u0", email := "a@school.edu", password := "pw12345678",
    user_metadata := { tenant_id := "t0", role := "admin",
                       first_name := none, last_name := none },
    email_confirm := true }

/-- A store already holding that identity. -/
def storeWithUser : Store :=
  { schools := [], users := [existingUser], profiles := [], terms := [] }

end Provisioner

namespace Provisioner

theorem filter_bne_eq_self {α : Type} (f : α → String) (v : String) :
    ∀ l : List α, (∀ x ∈ l, f x ≠ v) → l.filter (fun x => f x != v) = l := by
  intro l h
  induction l with
  | nil => rfl
  | cons a t ih =>
    have ha : (f a != v) = true := bne_iff_ne.mpr (h a (by simp))
    rw [List.filter_cons, if_pos ha]
    exact congrArg (a :: ·) (ih (fun x hx => h x (by simp [hx])))

theorem schools_cleanup (st : Store) (req : CreateTenantRequest) (ftid : String)
    (h : ∀ s ∈ st.schools, s.id ≠ ftid) :
    (st.schools ++ [insertedSchool req ftid]).filter (fun s => s.id != ftid) = st.schools := by
  rw [List.filter_append, filter_bne_eq_self _ _ _ h]
  simp [insertedSchool]

theorem users_cleanup (st : Store) (req : CreateTenantRequest) (ftid fuid : String)
    (h : ∀ u ∈ st.users, u.id ≠ fuid) :
    (st.users ++ [insertedAuthUser req ftid fuid]).filter (fun u => u.id != fuid) = st.users := by
  rw [List.filter_append, filter_bne_eq_self _ _ _ h]
  simp [insertedAuthUser]

/-- C8: for a request with the three required fields present and a
well-formed email, a password shorter than 8 characters is rejected with
the 400 validation response about password length before any mutation:
the store is returned unchanged and the action trace is empty. -/
theorem short_password_validation (ftid fuid : String) (year : Nat)
    (inj : Injection) (req : CreateTenantRequest) (st : Store)
    (h1 : requiredMissing req = false) (h2 : emailRegexTest req.email = true)
    (hlen : req.password.length < 8) :
    createTenant ftid fuid year inj req st =
      ⟨⟨400, false, some "Password must be at least 8 characters long", none, none⟩, st, []⟩ := by
  simp [createTenant, h1, h2, hlen]

theorem short_password_validation_witness :
    requiredMissing shortPwReq = false ∧ emailRegexTest shortPwReq.email = true ∧
    shortPwReq.password.length < 8 ∧
    createTenant "T" "U" 2025 noInj shortPwReq emptyStore =
      ⟨⟨400, false, some "Password must be at least 8 characters long", none, none⟩, emptyStore, []⟩ :=
  ⟨by decide, by decide, by decide,
   short_password_validation "T" "U" 2025 noInj shortPwReq emptyStore
     (by decide) (by decide) (by decide)⟩

/-- C4: when only step 4 fails, the handler still answers 201 with the
fresh tenant and user ids, the school, identity and profile rows from
steps 1 to 3 stay in the store undeleted, and no term row is added. -/
theorem best_effort_term_failure (ftid fuid : String) (year : Nat)
    (req : CreateTenantRequest) (st : Store)
    (h1 : requiredMissing req = false) (h2 : emailRegexTest req.email = true)
    (h3 : ¬ req.password.length < 8)
    (h4 : emailExistsCheck req st = false) (h5 : schoolConflictCheck req st = false) :
    createTenant ftid fuid year { termInsertFails := true } req st =
      ⟨⟨201, true, none, some ftid, some fuid⟩,
       { schools := st.schools ++ [insertedSchool req ftid],
         users := st.users ++ [insertedAuthUser req ftid fuid],
         profiles := st.profiles ++ [insertedProfile req ftid fuid],
         terms := st.terms },
       [.insertSchool ftid, .createUser fuid, .insertProfile fuid]⟩ := by
  simp [createTenant, h1, h2, h3, h4, h5]

theorem best_effort_term_failure_witness :
    requiredMissing okReq = false ∧ emailRegexTest okReq.email = true ∧
    ¬ okReq.password.length < 8 ∧ emailExistsCheck okReq emptyStore = false ∧
    schoolConflictCheck okReq emptyStore = false ∧
    createTenant "T" "U" 2025 { termInsertFails := true } okReq emptyStore =
      ⟨⟨201, true, none, some "T", some "U"⟩,
       { schools := [insertedSchool okReq "T"],
         users := [insertedAuthUser okReq "T" "U"],
         profiles := [insertedProfile okReq "T" "U"],
         terms := [] },
       [.insertSchool "T", .createUser "U", .insertProfile "U"]⟩ :=
  ⟨by decide, by decide, by decide, by decide, by decide,
   best_effort_term_failure "T" "U" 2025 okReq emptyStore
     (by decide) (by decide) (by decide) (by decide) (by decide)⟩

/-- C7: against a store in which identity emails are kept in lowercase
form, as both creation paths of the repository store them, a request
whose email matches a stored identity email case-insensitively is
answered with the 409 conflict response about the registered email, the
store is unchanged and no action is performed. The earlier validation
checks are assumed to pass, as they run first. -/
theorem duplicate_email_conflict (ftid fuid : String) (year : Nat)
    (inj : Injection) (req : CreateTenantRequest) (st : Store)
    (h1 : requiredMissing req = false) (h2 : emailRegexTest req.email = true)
    (h3 : ¬ req.password.length < 8)
    (hlower : ∀ u ∈ st.users, jsToLower u.email = u.email)
    (hdup : ∃ u ∈ st.users, jsToLower u.email = jsToLower req.email) :
    createTenant ftid fuid year inj req st =
      ⟨⟨409, false, some "Email address is already registered", none, none⟩, st, []⟩ := by
  have hex : emailExistsCheck req st = true := by
    obtain ⟨u, hm, he⟩ := hdup
    have heq : u.email = jsToLower req.email := by rw [← hlower u hm, he]
    exact List.any_eq_true.mpr ⟨u, hm, by simp [heq]⟩
  simp [createTenant, h1, h2, h3, hex]

theorem duplicate_email_conflict_witness :
    requiredMissing dupEmailReq = false ∧ emailRegexTest dupEmailReq.email = true ∧
    ¬ dupEmailReq.password.length < 8 ∧
    (∀ u ∈ storeWithUser.users, jsToLower u.email = u.email) ∧
    (∃ u ∈ storeWithUser.users, jsToLower u.email = jsToLower dupEmailReq.email) ∧
    createTenant "T" "U" 2025 noInj dupEmailReq storeWithUser =
      ⟨⟨409, false, some "Email address is already registered", none, none⟩, storeWithUser, []⟩ :=
  ⟨by decide, by decide, by decide, by decide, by decide,
   duplicate_email_conflict "T" "U" 2025 noInj dupEmailReq storeWithUser
     (by decide) (by decide) (by decide) (by decide) (by decide)⟩

/-- C1: when step 2 or step 3 is the failing step, the handler reports a
500 failure, never the success response, and once it returns the school
row from step 1 and any identity from step 2 have been deleted, so the
whole store is back to its initial contents; the recorded action trace
shows the compensation running in reverse order of the completed steps,
the identity deletion preceding the school deletion. -/
theorem atomic_compensation_on_failure (ftid fuid : String) (year : Nat)
    (inj : Injection) (req : CreateTenantRequest) (st : Store)
    (h1 : requiredMissing req = false) (h2 : emailRegexTest req.email = true)
    (h3 : ¬ req.password.length < 8)
    (h4 : emailExistsCheck req st = false) (h5 : schoolConflictCheck req st = false)
    (hs : inj.schoolInsertFails = false)
    (hfail : inj.userCreateFails = true ∨ inj.profileInsertFails = true)
    (hfreshS : ∀ s ∈ st.schools, s.id ≠ ftid)
    (hfreshU : ∀ u ∈ st.users, u.id ≠ fuid) :
    (createTenant ftid fuid year inj req st).store = st ∧
    (createTenant ftid fuid year inj req st).resp.success = false ∧
    (createTenant ftid fuid year inj req st).resp.status = 500 ∧
    (inj.userCreateFails = true →
      (createTenant ftid fuid year inj req st).trace =
        [.insertSchool ftid, .deleteSchool ftid, .deleteSchool ftid]) ∧
    (inj.userCreateFails = false →
      (createTenant ftid fuid year inj req st).trace =
        [.insertSchool ftid, .createUser fuid, .deleteUser fuid, .deleteSchool ftid,
         .deleteUser fuid, .deleteSchool ftid]) := by
  have hS1 : st.schools.filter (fun s => s.id != ftid) = st.schools :=
    filter_bne_eq_self _ _ _ hfreshS
  have hU1 : st.users.filter (fun u => u.id != fuid) = st.users :=
    filter_bne_eq_self _ _ _ hfreshU
  have hS2 := schools_cleanup st req ftid hfreshS
  have hU2 := users_cleanup st req ftid fuid hfreshU
  cases huc : inj.userCreateFails with
  | true =>
    simp [createTenant, h1, h2, h3, h4, h5, hs, huc,
          deleteSchoolById, deleteUserById, hS1, hS2]
  | false =>
    have hpf : inj.profileInsertFails = true := by
      rcases hfail with h | h
      · rw [huc] at h; exact absurd h (by simp)
      · exact h
    simp [createTenant, h1, h2, h3, h4, h5, hs, huc, hpf,
          deleteSchoolById, deleteUserById, hS1, hS2, hU1, hU2]

theorem atomic_compensation_on_failure_witness :
    requiredMissing okReq = false ∧ emailRegexTest okReq.email = true ∧
    ¬ okReq.password.length < 8 ∧ emailExistsCheck okReq emptyStore = false ∧
    schoolConflictCheck okReq emptyStore = false ∧
    (Injection.userCreateFails { userCreateFails := true } = true ∨
     Injection.profileInsertFails { userCreateFails := true } = true) ∧
    ((createTenant "T" "U" 2025 { userCreateFails := true } okReq emptyStore).store = emptyStore ∧
     (createTenant "T" "U" 2025 { userCreateFails := true } okReq emptyStore).resp.success = false ∧
     (createTenant "T" "U" 2025 { userCreateFails := true } okReq emptyStore).resp.status = 500 ∧
     (Injection.userCreateFails { userCreateFails := true } = true →
       (createTenant "T" "U" 2025 { userCreateFails := true } okReq emptyStore).trace =
         [.insertSchool "T", .deleteSchool "T", .deleteSchool "T"]) ∧
     (Injection.userCreateFails { userCreateFails := true } = false →
       (createTenant "T" "U" 2025 { userCreateFails := true } okReq emptyStore).trace =
         [.insertSchool "T", .createUser "U", .deleteUser "U", .deleteSchool "T",
          .deleteUser "U", .deleteSchool "T"])) :=
  ⟨by decide, by decide, by decide, by decide, by decide, Or.inl (by decide),
   atomic_compensation_on_failure "T" "U" 2025 { userCreateFails := true } okReq emptyStore
     (by decide) (by decide) (by decide) (by decide) (by decide) (by decide)
     (Or.inl (by decide)) (by decide) (by decide)⟩

end Provisioner

namespace Binder

theorem fetchUserData_fail (db : Db) (st : AuthState) (uid now : String) (ll : Bool)
    (h : profileQuery db uid = [] ∨
      ∃ p, profileQuery db uid = [p] ∧ schoolQuery db p.tenant_id = []) :
    fetchUserData db st uid now ll = ⟨{ st with isLoading := false }, db, false⟩ := by
  rcases h with h | ⟨p, hp, hs⟩
  · unfold fetchUserData
    rw [h]
  · unfold fetchUserData
    rw [hp]
    dsimp only
    rw [hs]

theorem fetch_state_ok_flag_indep (db : Db) (st : AuthState) (uid now : String) :
    (fetchUserData db st uid now true).state = (fetchUserData db st uid now false).state ∧
    (fetchUserData db st uid now true).ok = (fetchUserData db st uid now false).ok := by
  unfold fetchUserData
  cases hp : profileQuery db uid with
  | nil => simp
  | cons p rest =>
    cases rest with
    | nil =>
      dsimp only
      cases hs : schoolQuery db p.tenant_id with
      | nil => simp
      | cons s rest2 =>
        cases rest2 with
        | nil => simp
        | cons _ _ => simp
    | cons q t => simp

/-- C2: a Bind against an identity with no active profile row, or whose
tenant row is absent or not subscription-active, returns false and binds
nothing: starting from a state with the four bound fields cleared they
all stay cleared, and a SignIn whose Bind fails reports the fixed
failure message with the four bound fields still cleared. -/
theorem bind_invalid_profile_resets_nothing (db : Db) (st : AuthState)
    (sess : Session) (e pw now : String) (ll : Bool)
    (hclear : st.user = none ∧ st.school = none ∧ st.role = none ∧ st.tenantId = none)
    (hfail : profileQuery db sess.userId = [] ∨
      ∃ p, profileQuery db sess.userId = [p] ∧ schoolQuery db p.tenant_id = []) :
    ((fetchUserData db st sess.userId now ll).ok = false ∧
     (fetchUserData db st sess.userId now ll).state.user = none ∧
     (fetchUserData db st sess.userId now ll).state.school = none ∧
     (fetchUserData db st sess.userId now ll).state.role = none ∧
     (fetchUserData db st sess.userId now ll).state.tenantId = none) ∧
    ((signIn db st e pw (.ok sess) now ll).success = false ∧
     (signIn db st e pw (.ok sess) now ll).error = some "Failed to load user data" ∧
     (signIn db st e pw (.ok sess) now ll).state.user = none ∧
     (signIn db st e pw (.ok sess) now ll).state.school = none ∧
     (signIn db st e pw (.ok sess) now ll).state.role = none ∧
     (signIn db st e pw (.ok sess) now ll).state.tenantId = none) := by
  obtain ⟨h1, h2, h3, h4⟩ := hclear
  have hf := fetchUserData_fail db st sess.userId now ll hfail
  have hf2 := fetchUserData_fail db { st with session := some sess } sess.userId now ll hfail
  constructor
  · rw [hf]
    exact ⟨rfl, h1, h2, h3, h4⟩
  · simp only [signIn, hf2]
    exact ⟨rfl, rfl, h1, h2, h3, h4⟩

theorem bind_invalid_profile_resets_nothing_witness :
    (initialState.user = none ∧ initialState.school = none ∧
     initialState.role = none ∧ initialState.tenantId = none) ∧
    profileQuery emptyDb exSession.userId = [] ∧
    ((fetchUserData emptyDb initialState exSession.userId "now" false).ok = false ∧
     (fetchUserData emptyDb initialState exSession.userId "now" false).state.user = none ∧
     (fetchUserData emptyDb initialState exSession.userId "now" false).state.school = none ∧
     (fetchUserData emptyDb initialState exSession.userId "now" false).state.role = none ∧
     (fetchUserData emptyDb initialState exSession.userId "now" false).state.tenantId = none) ∧
    ((signIn emptyDb initialState "a@x.io" "pw" (.ok exSession) "now" false).success = false ∧
     (signIn emptyDb initialState "a@x.io" "pw" (.ok exSession) "now" false).error =
       some "Failed to load user data" ∧
     (signIn emptyDb initialState "a@x.io" "pw" (.ok exSession) "now" false).state.user = none ∧
     (signIn emptyDb initialState "a@x.io" "pw" (.ok exSession) "now" false).state.school = none ∧
     (signIn emptyDb initialState "a@x.io" "pw" (.ok exSession) "now" false).state.role = none ∧
     (signIn emptyDb initialState "a@x.io" "pw" (.ok exSession) "now" false).state.tenantId = none) :=
  ⟨by decide, by decide,
   (bind_invalid_profile_resets_nothing emptyDb initialState exSession "a@x.io" "pw" "now" false
     (by decide) (Or.inl (by decide))).1,
   (bind_invalid_profile_resets_nothing emptyDb initialState exSession "a@x.io" "pw" "now" false
     (by decide) (Or.inl (by decide))).2⟩

/-- C3: a SwitchTenant to a tenant with no profile row for the current
identity returns the access-denied failure and leaves the client state,
the store and the identity claims exactly as they were. -/
theorem switchTenant_access_denied (db : Db) (claims : UserClaims) (st : AuthState)
    (sess : Session) (ntid : String) (ue : Option String) (now : String) (ll : Bool)
    (hsess : st.session = some sess)
    (habsent : tenantProfileQuery db sess.userId ntid = []) :
    switchTenant db claims st ntid ue now ll =
      ⟨st, db, claims, false, some "Access denied to this tenant"⟩ := by
  unfold switchTenant
  rw [hsess]
  dsimp only
  rw [habsent]

theorem switchTenant_access_denied_witness :
    boundExampleState.session = some exSession ∧
    tenantProfileQuery emptyDb exSession.userId "t2" = [] ∧
    switchTenant emptyDb ⟨some "t1", some "admin"⟩ boundExampleState "t2" none "now" false =
      ⟨boundExampleState, emptyDb, ⟨some "t1", some "admin"⟩, false,
       some "Access denied to this tenant"⟩ :=
  ⟨by decide, by decide,
   switchTenant_access_denied emptyDb ⟨some "t1", some "admin"⟩ boundExampleState exSession
     "t2" none "now" false (by decide) (by decide)⟩

/-- C5 as stated is false: at a fully bound state, when session
revocation errors, signOut returns normally but clears nothing, so the
bound user and session both remain set. -/
theorem signOut_revocation_error_keeps_state_cex :
    (signOut boundExampleState true).user ≠ none ∧
    (signOut boundExampleState true).session ≠ none := by
  constructor <;> decide

/-- C5 amended: signOut never fails its caller; when revocation succeeds
every bound field including the session is cleared; when revocation
errors it returns normally leaving the state unchanged; hence a signOut
in an already cleared state is a no-op either way. -/
theorem signOut_amended (st : AuthState) :
    ((signOut st false).session = none ∧ (signOut st false).user = none ∧
     (signOut st false).school = none ∧ (signOut st false).role = none ∧
     (signOut st false).tenantId = none) ∧
    signOut st true = st ∧
    (st.session = none → st.user = none → st.school = none → st.role = none →
      st.tenantId = none → ∀ rf : Bool, signOut st rf = st) := by
  refine ⟨⟨rfl, rfl, rfl, rfl, rfl⟩, rfl, ?_⟩
  intro h1 h2 h3 h4 h5 rf
  cases rf
  · cases st
    simp_all [signOut]
  · rfl

theorem signOut_amended_witness :
    signOut initialState false = initialState ∧
    signOut boundExampleState true = boundExampleState :=
  ⟨(signOut_amended initialState).2.2 rfl rfl rfl rfl rfl false,
   (signOut_amended boundExampleState).2.1⟩

/-- C9: the lastLogin write inside a successful Bind is fire-and-forget:
whether it fails or not, the resulting client state and the returned
boolean of fetchUserData are identical, and the caller-visible outcome
of signIn, switchTenant and refreshUserData is identical as well. -/
theorem lastLogin_write_failure_invisible (db : Db) (st : AuthState)
    (uid now : String) :
    ((fetchUserData db st uid now true).state = (fetchUserData db st uid now false).state ∧
     (fetchUserData db st uid now true).ok = (fetchUserData db st uid now false).ok) ∧
    (∀ (e pw : String) (auth : SignInAuth),
      (signIn db st e pw auth now true).state = (signIn db st e pw auth now false).state ∧
      (signIn db st e pw auth now true).success = (signIn db st e pw auth now false).success ∧
      (signIn db st e pw auth now true).error = (signIn db st e pw auth now false).error) ∧
    (∀ (claims : UserClaims) (ntid : String) (ue : Option String),
      (switchTenant db claims st ntid ue now true).state =
        (switchTenant db claims st ntid ue now false).state ∧
      (switchTenant db claims st ntid ue now true).claims =
        (switchTenant db claims st ntid ue now false).claims ∧
      (switchTenant db claims st ntid ue now true).success =
        (switchTenant db claims st ntid ue now false).success ∧
      (switchTenant db claims st ntid ue now true).error =
        (switchTenant db claims st ntid ue now false).error) ∧
    ((refreshUserData db st now true).state = (refreshUserData db st now false).state ∧
     (refreshUserData db st now true).ok = (refreshUserData db st now false).ok) := by
  refine ⟨fetch_state_ok_flag_indep db st uid now, ?_, ?_, ?_⟩
  · intro e pw auth
    cases auth with
    | fail msg => exact ⟨rfl, rfl, rfl⟩
    | noSession => exact ⟨rfl, rfl, rfl⟩
    | ok s =>
      have h := fetch_state_ok_flag_indep db { st with session := some s } s.userId now
      simp only [signIn]
      rw [h.1, h.2]
      cases hok : (fetchUserData db { st with session := some s } s.userId now false).ok <;>
        simp [hok]
  · intro claims ntid ue
    unfold switchTenant
    cases hsess : st.session with
    | none => exact ⟨rfl, rfl, rfl, rfl⟩
    | some s =>
      dsimp only
      cases hq : tenantProfileQuery db s.userId ntid with
      | nil => exact ⟨rfl, rfl, rfl, rfl⟩
      | cons p rest =>
        cases rest with
        | cons q t => exact ⟨rfl, rfl, rfl, rfl⟩
        | nil =>
          cases ue with
          | some msg => exact ⟨rfl, rfl, rfl, rfl⟩
          | none =>
            have h := fetch_state_ok_flag_indep db st s.userId now
            rw [h.1, h.2]
            cases hok : (fetchUserData db st s.userId now false).ok <;> simp [hok]
  · unfold refreshUserData
    cases hsess : st.session with
    | none => exact ⟨rfl, rfl⟩
    | some s => exact fetch_state_ok_flag_indep db st s.userId now

theorem filter_map_nil {α : Type} (g gp : α → Bool) (f : α → α) :
    ∀ l : List α, l.filter g = [] → (∀ x, g x = false → gp (f x) = false) →
      (l.map f).filter gp = [] := by
  intro l h h0
  induction l with
  | nil => rfl
  | cons a t ih =>
    cases hga : g a with
    | true =>
      rw [List.filter_cons, if_pos hga] at h
      simp at h
    | false =>
      rw [List.filter_cons, if_neg (by simp [hga])] at h
      simp only [List.map_cons, List.filter_cons, h0 a hga]
      simp only [Bool.false_eq_true, if_false]
      exact ih h

theorem filter_map_singleton {α : Type} (g gp : α → Bool) (f : α → α) (p : α) :
    ∀ l : List α, l.filter g = [p] → (∀ x, g x = false → gp (f x) = false) →
      gp (f p) = true → (l.map f).filter gp = [f p] := by
  intro l h h0 hp
  induction l with
  | nil => simp at h
  | cons a t ih =>
    cases hga : g a with
    | true =>
      rw [List.filter_cons, if_pos hga] at h
      simp only [List.cons.injEq] at h
      obtain ⟨rfl, ht⟩ := h
      simp only [List.map_cons, List.filter_cons, if_pos hp, List.cons.injEq, true_and]
      exact filter_map_nil g gp f t ht h0
    | false =>
      rw [List.filter_cons, if_neg (by simp [hga])] at h
      simp only [List.map_cons, List.filter_cons, h0 a hga]
      simp only [Bool.false_eq_true, if_false]
      exact ih h

/-- C6: in a consistent Bound state, updateProfile strips id, tenant_id
and created_at from the input before the write, so the rebound profile
keeps its identity, tenant membership and creation timestamp whatever
the input held in those fields; the write touches only rows passing both
equality filters, every other row surviving unchanged; and a firstName
update is reflected in the bound user by the refresh that follows. -/
theorem updateProfile_strips_and_roundtrip (db : Db) (st : AuthState)
    (p : Profile) (s : School) (sess : Session) (u : ProfileUpdates)
    (now : String) (ll : Bool)
    (hu : st.user = some p) (ht : st.tenantId = some p.tenant_id)
    (hsess : st.session = some sess) (hid : sess.userId = p.id)
    (hact : p.is_active = true)
    (hprof : db.profiles.filter (fun q => q.id == p.id) = [p])
    (hschool : schoolQuery db p.tenant_id = [s])
    (hfn : u.first_name = some (some "X")) (hia : u.is_active = none) :
    (updateProfile db st u none now ll).success = true ∧
    (updateProfile db st u none now ll).state.user = some (applyAllowedUpdates u p) ∧
    (applyAllowedUpdates u p).first_name = some "X" ∧
    (applyAllowedUpdates u p).id = p.id ∧
    (applyAllowedUpdates u p).tenant_id = p.tenant_id ∧
    (applyAllowedUpdates u p).created_at = p.created_at ∧
    (∀ q ∈ db.profiles, (q.id == p.id && q.tenant_id == p.tenant_id) = false →
      q ∈ (updateProfile db st u none now ll).db.profiles) := by
  have key : updateProfile db st u none now ll =
      ⟨(fetchUserData
          { db with profiles := db.profiles.map (fun q =>
              if q.id == p.id && q.tenant_id == p.tenant_id
              then applyAllowedUpdates u q else q) }
          st sess.userId now ll).state,
       (fetchUserData
          { db with profiles := db.profiles.map (fun q =>
              if q.id == p.id && q.tenant_id == p.tenant_id
              then applyAllowedUpdates u q else q) }
          st sess.userId now ll).db, true, none⟩ := by
    unfold updateProfile
    rw [hu, ht, hsess]
  have h0 : ∀ x : Profile, (x.id == p.id) = false →
      (((if x.id == p.id && x.tenant_id == p.tenant_id
          then applyAllowedUpdates u x else x)).id == p.id &&
        (if x.id == p.id && x.tenant_id == p.tenant_id
          then applyAllowedUpdates u x else x).is_active) = false := by
    intro x hx
    simp [hx]
  have hp1 : (((if p.id == p.id && p.tenant_id == p.tenant_id
        then applyAllowedUpdates u p else p)).id == p.id &&
      (if p.id == p.id && p.tenant_id == p.tenant_id
        then applyAllowedUpdates u p else p).is_active) = true := by
    simp [applyAllowedUpdates, hia, hact]
  have hpq : profileQuery
      { db with profiles := db.profiles.map (fun q =>
          if q.id == p.id && q.tenant_id == p.tenant_id
          then applyAllowedUpdates u q else q) } sess.userId =
      [applyAllowedUpdates u p] := by
    unfold profileQuery
    rw [hid]
    have := filter_map_singleton (fun q : Profile => q.id == p.id)
      (fun q : Profile => q.id == p.id && q.is_active)
      (fun q : Profile => if q.id == p.id && q.tenant_id == p.tenant_id
        then applyAllowedUpdates u q else q) p db.profiles hprof h0 hp1
    rw [this]
    simp
  have hsq : schoolQuery
      { db with profiles := db.profiles.map (fun q =>
          if q.id == p.id && q.tenant_id == p.tenant_id
          then applyAllowedUpdates u q else q) }
      (applyAllowedUpdates u p).tenant_id = [s] := by
    exact hschool
  refine ⟨?_, ?_, ?_, rfl, rfl, rfl, ?_⟩
  · rw [key]
  · rw [key]
    unfold fetchUserData
    rw [hpq]
    dsimp only
    rw [hsq]
  · simp [applyAllowedUpdates, hfn]
  · intro q hq hcond
    rw [key]
    unfold fetchUserData
    rw [hpq]
    dsimp only
    rw [hsq]
    dsimp only
    have hfq : (if q.id == p.id && q.tenant_id == p.tenant_id
        then applyAllowedUpdates u q else q) = q := by
      rw [if_neg (by simp [hcond])]
    cases ll with
    | true =>
      simp only [if_pos rfl]
      exact hfq ▸ List.mem_map_of_mem _ hq
    | false =>
      simp only [Bool.false_eq_true, if_false]
      have hm1 : q ∈ db.profiles.map (fun x =>
          if x.id == p.id && x.tenant_id == p.tenant_id
          then applyAllowedUpdates u x else x) :=
        hfq ▸ List.mem_map_of_mem _ hq
      have hq2 : (if q.id == sess.userId && q.tenant_id == (applyAllowedUpdates u p).tenant_id
          then { q with last_login := some now } else q) = q := by
        rw [if_neg]
        simp only [hid]
        intro hcon
        rw [show (applyAllowedUpdates u p).tenant_id = p.tenant_id from rfl] at hcon
        rw [hcond] at hcon
        exact absurd hcon (by simp)
      exact hq2 ▸ List.mem_map_of_mem _ hm1

theorem updateProfile_strips_and_roundtrip_witness :
    (boundExampleState.user = some exProfile ∧
     boundExampleState.tenantId = some exProfile.tenant_id ∧
     boundExampleState.session = some exSession ∧
     exSession.userId = exProfile.id ∧
     exProfile.is_active = true ∧
     exDb.profiles.filter (fun q => q.id == exProfile.id) = [exProfile] ∧
     schoolQuery exDb exProfile.tenant_id = [exSchool] ∧
     exUpdates.first_name = some (some "X") ∧
     exUpdates.is_active = none) ∧
    ((updateProfile exDb boundExampleState exUpdates none "now" false).success = true ∧
     (updateProfile exDb boundExampleState exUpdates none "now" false).state.user =
       some (applyAllowedUpdates exUpdates exProfile) ∧
     (applyAllowedUpdates exUpdates exProfile).first_name = some "X" ∧
     (applyAllowedUpdates exUpdates exProfile).id = exProfile.id ∧
     (applyAllowedUpdates exUpdates exProfile).tenant_id = exProfile.tenant_id ∧
     (applyAllowedUpdates exUpdates exProfile).created_at = exProfile.created_at ∧
     (∀ q ∈ exDb.profiles,
       (q.id == exProfile.id && q.tenant_id == exProfile.tenant_id) = false →
       q ∈ (updateProfile exDb boundExampleState exUpdates none "now" false).db.profiles)) :=
  ⟨⟨by decide, by decide, by decide, by decide, by decide, by decide, by decide,
    by decide, by decide⟩,
   updateProfile_strips_and_roundtrip exDb boundExampleState exProfile exSchool exSession
     exUpdates "now" false (by decide) (by decide) (by decide) (by decide) (by decide)
     (by decide) (by decide) (by decide) (by decide)⟩

theorem profileQuery_single_active {db : Db} {uid : String} {p : Profile}
    (h : profileQuery db uid = [p]) : p.is_active = true := by
  have hm : p ∈ profileQuery db uid := by rw [h]; simp
  have hpred := (List.mem_filter.mp hm).2
  simp only [Bool.and_eq_true] at hpred
  exact hpred.2

theorem schoolQuery_single_props {db : Db} {tid : String} {s : School}
    (h : schoolQuery db tid = [s]) : s.id = tid ∧ s.subscription_status = "active" := by
  have hm : s ∈ schoolQuery db tid := by rw [h]; simp
  have hpred := (List.mem_filter.mp hm).2
  simp only [Bool.and_eq_true, beq_iff_eq] at hpred
  exact hpred

theorem consistent_of_cleared (st : AuthState) (h1 : st.user = none)
    (h2 : st.school = none) (h3 : st.role = none) (h4 : st.tenantId = none) :
    Consistent st := by
  constructor
  · intro _
    exact ⟨h2, h3, h4⟩
  · intro p hp
    rw [h1] at hp
    exact absurd hp (by simp)

theorem fetch_consistent (db : Db) (st : AuthState) (uid now : String) (ll : Bool)
    (h : Consistent st) : Consistent (fetchUserData db st uid now ll).state := by
  unfold fetchUserData
  cases hp : profileQuery db uid with
  | nil => exact h
  | cons p rest =>
    cases rest with
    | cons q t => exact h
    | nil =>
      dsimp only
      cases hs : schoolQuery db p.tenant_id with
      | nil => exact h
      | cons s rest2 =>
        cases rest2 with
        | cons _ _ => exact h
        | nil =>
          dsimp only
          constructor
          · intro hc
            exact absurd hc (by simp)
          · intro p' hp'
            simp only [Option.some.injEq] at hp'
            subst hp'
            exact ⟨rfl, rfl, profileQuery_single_active hp,
                   s, rfl, (schoolQuery_single_props hs).1, (schoolQuery_single_props hs).2⟩

theorem startSession_consistent (db : Db) (st : AuthState) (restored : Option Session)
    (now : String) (ll : Bool) (h : Consistent st) :
    Consistent (startSession db st restored now ll).state := by
  cases restored with
  | some s => exact fetch_consistent db _ s.userId now ll h
  | none => exact h

theorem signIn_consistent (db : Db) (st : AuthState) (e pw : String)
    (auth : SignInAuth) (now : String) (ll : Bool) (h : Consistent st) :
    Consistent (signIn db st e pw auth now ll).state := by
  cases auth with
  | fail msg => exact h
  | noSession => exact h
  | ok s =>
    unfold signIn
    dsimp only
    cases hok : (fetchUserData db { st with session := some s } s.userId now ll).ok <;>
      simp only [hok, Bool.false_eq_true, if_false, if_pos rfl] <;>
      exact fetch_consistent db _ s.userId now ll h

theorem signUp_consistent (db : Db) (st : AuthState) (e pw role : String)
    (sd : Option SchoolInsertData) (fid : String) (sif : Bool)
    (ar : SignUpAuthResult) (pif rrf : Bool) (now : String) (ll : Bool)
    (h : Consistent st) :
    Consistent (signUp db st e pw role sd fid sif ar pif rrf now ll).state := by
  unfold signUp
  dsimp only
  split
  · exact h
  · cases ar with
    | fail msg => exact h
    | noUser => exact h
    | ok uid sessionOpt =>
      dsimp only
      split
      · exact h
      · cases sessionOpt with
        | some sess => exact fetch_consistent _ _ uid now ll h
        | none => exact h

theorem refresh_consistent (db : Db) (st : AuthState) (now : String) (ll : Bool)
    (h : Consistent st) : Consistent (refreshUserData db st now ll).state := by
  unfold refreshUserData
  cases st.session with
  | some s => exact fetch_consistent db st s.userId now ll h
  | none => exact h

theorem updateProfile_consistent (db : Db) (st : AuthState) (u : ProfileUpdates)
    (we : Option String) (now : String) (ll : Bool) (h : Consistent st) :
    Consistent (updateProfile db st u we now ll).state := by
  unfold updateProfile
  cases st.user with
  | none => exact h
  | some user =>
    cases st.tenantId with
    | none => exact h
    | some tid =>
      dsimp only
      cases we with
      | some msg => exact h
      | none =>
        dsimp only
        cases st.session with
        | some s => exact fetch_consistent _ st s.userId now ll h
        | none => exact h

theorem switchTenant_consistent (db : Db) (claims : UserClaims) (st : AuthState)
    (ntid : String) (ue : Option String) (now : String) (ll : Bool)
    (h : Consistent st) :
    Consistent (switchTenant db claims st ntid ue now ll).state := by
  unfold switchTenant
  cases st.session with
  | none => exact h
  | some s =>
    dsimp only
    cases tenantProfileQuery db s.userId ntid with
    | nil => exact h
    | cons p rest =>
      cases rest with
      | cons q t => exact h
      | nil =>
        dsimp only
        cases ue with
        | some msg => exact h
        | none =>
          dsimp only
          cases hok : (fetchUserData db st s.userId now ll).ok <;>
            simp only [hok, Bool.false_eq_true, if_false, if_pos rfl] <;>
            exact fetch_consistent db st s.userId now ll h

theorem authStateChange_consistent (db : Db) (st : AuthState) (push : Option Session)
    (now : String) (ll : Bool) (h : Consistent st) :
    Consistent (authStateChange db st push now ll).1 := by
  cases push with
  | none =>
    exact consistent_of_cleared _ rfl rfl rfl rfl
  | some s =>
    unfold authStateChange
    dsimp only
    cases s.metaTenantId <;> exact fetch_consistent db _ s.userId now ll h

theorem signOut_consistent (st : AuthState) (rf : Bool) (h : Consistent st) :
    Consistent (signOut st rf) := by
  cases rf with
  | true => exact h
  | false => exact consistent_of_cleared _ rfl rfl rfl rfl

/-- C10: in every client state reachable through the AuthProvider
transitions, the four bound fields are populated or cleared together
from one pair of successful reads: a bound profile always carries
is_active true, the bound role and tenantId equal that profile's own
role and tenant_id, and the bound school has the same id and an active
subscription; and whenever the user field is cleared the other three are
cleared with it. -/
theorem bound_state_consistency (st : AuthState) (h : Reachable st) : Consistent st := by
  induction h with
  | init => exact consistent_of_cleared initialState rfl rfl rfl rfl
  | start db st restored now ll _ ih => exact startSession_consistent db st restored now ll ih
  | stepSignIn db st e pw auth now ll _ ih => exact signIn_consistent db st e pw auth now ll ih
  | stepSignUp db st e pw role sd fid sif ar pif rrf now ll _ ih =>
    exact signUp_consistent db st e pw role sd fid sif ar pif rrf now ll ih
  | stepSignOut st rf _ ih => exact signOut_consistent st rf ih
  | stepRefresh db st now ll _ ih => exact refresh_consistent db st now ll ih
  | stepUpdateProfile db st u we now ll _ ih => exact updateProfile_consistent db st u we now ll ih
  | stepSwitchTenant db claims st ntid ue now ll _ ih =>
    exact switchTenant_consistent db claims st ntid ue now ll ih
  | stepAuthChange db st push now ll _ ih => exact authStateChange_consistent db st push now ll ih

theorem bound_state_consistency_witness :
    Consistent (startSession exDb initialState (some exSession) "now" false).state :=
  bound_state_consistency _
    (Reachable.start exDb initialState (some exSession) "now" false Reachable.init)

end Binder

end KoolSkool
